import Mathlib

/-
Verification of the IsMonApi client (src/is_mon_api.py) against its
natural-language specification.

Shallow embedding conventions:
- Python exceptions are modelled by the RunOutcome.raise constructor; a
  Python method that returns None is modelled by RunOutcome.ok none.
- The HTTP transport is modelled by an oracle function
  send : Nat -> SendOutcome giving the outcome of the i-th physical
  request (0-based) of a logical call.
- The while-loop in IsMonApi._api_call (lines 82-111) is modelled by
  fuel-bounded recursion (runLoop); exhausting the fuel yields the
  distinguished outcome RunOutcome.outOfFuel, which stands for the loop
  still running after that many iterations.
- Python float division on ints (line 110) is modelled exactly as the
  rational num/den kept unreduced in a PyFloat pair; the comparison
  cur_page < last_page is the exact rational comparison (for the small
  integers involved here, IEEE double rounding never changes the
  comparison against the integer cur_page).
- A Python dict literal is modelled as an association list in insertion
  order; absent optional arguments are Option.none, matching the
  default value None in the Python signatures.
-/

set_option autoImplicit false

/-- Python exception kinds that the modelled code can raise. -/
inductive PyError where
  | attributeError
  | typeError
  | keyError
  | transportError
  | jsonDecodeError
  | zeroDivisionError
deriving DecidableEq, Repr

/-- Outcome of running a modelled Python method: normal return,
an uncaught exception, or fuel exhaustion of the pagination loop. -/
inductive RunOutcome (α : Type) where
  | ok : α → RunOutcome α
  | raise : PyError → RunOutcome α
  | outOfFuel : RunOutcome α
deriving DecidableEq, Repr

/-- A JSON-ish Python value, for the request body dict passed as the
data argument of IsMonApi._api_call. -/
inductive PyVal where
  | vstr : String → PyVal
  | vint : Int → PyVal
  | vdict : List (String × PyVal) → PyVal

/-- Values that the resource accessors put into their params dicts. -/
inductive PVal where
  | pstr : String → PVal
  | pint : Int → PVal
  | pbool : Bool → PVal
deriving DecidableEq, Repr

/-- Python dict lookup d[k] on an association list, first binding wins. -/
def pyLookup (d : List (String × PyVal)) (k : String) : Option PyVal :=
  match d with
  | [] => none
  | (k1, v) :: rest => if k1 = k then some v else pyLookup rest k

/-- Python truthiness of the _sessionid field: None and the empty
string are falsy, any other string is truthy (line 69). -/
def pyTruthy : Option String → Bool
  | none => false
  | some s => !(s == "")

/-- The pagination metadata object carried under the meta key of a page
response (fields read on lines 101 and 110 of the source, plus the
status field which the response carries even though line 101 actually
reads the request body instead). -/
structure MetaInfo where
  status : Int
  countTotal : Int
  pageSize : Int
deriving DecidableEq, Repr

/-- One entry of the errors array of an error response body, as
consumed by the loop on line 106 via err["message"]: a dict carrying a
message key, a dict lacking it (err["message"] raises KeyError), or a
non-dict entry (err["message"] raises TypeError). -/
inductive ErrEntry where
  | withMessage : String → ErrEntry
  | withoutMessage : ErrEntry
  | nonDict : ErrEntry
deriving DecidableEq, Repr

/-- A parsed page response body: the fields that _api_call inspects
(lines 101-110). A missing key is Option.none; the errors key, when
present, holds an array whose entries may be malformed. -/
structure RespBody where
  meta : Option MetaInfo
  statusCode : Option Int
  message : Option String
  errors : Option (List ErrEntry)
deriving DecidableEq, Repr

/-- Outcome of one physical HTTP request: a transport-level exception
from requests, or a response with an HTTP status code and an optional
parsed JSON body (none models a body that response.json() rejects). -/
inductive SendOutcome where
  | transportError
  | response : Int → Option RespBody → SendOutcome

/-- The exact rational value of the Python float last_page, kept as an
unreduced numerator/denominator pair. -/
structure PyFloat where
  num : Int
  den : Int
deriving DecidableEq, Repr

/-- The comparison cur_page < last_page (line 82) between the int
cur_page and the float last_page, as an exact rational comparison. -/
def pyLtNat (n : Nat) (f : PyFloat) : Bool :=
  if 0 < f.den then decide ((n : Int) * f.den < f.num)
  else if f.den < 0 then decide (f.num < (n : Int) * f.den)
  else false

/-- One physical HTTP request as prepared and sent by the loop body
(lines 89-95): url, query parameters from prepare_url, method, headers,
and the body (some data for POST, none otherwise). -/
structure SentRequest where
  url : String
  query : List (String × PVal)
  method : String
  headers : List (String × String)
  body : Option (Option (List (String × PyVal)))

/-- The client state: constructor arguments plus the mutable _sessionid
field (lines 24-28). -/
structure ClientState where
  username : String
  password : String
  apikey : String
  sessionid : Option String
deriving DecidableEq, Repr

/-- The fixed _base_url (line 27). -/
def baseUrl : String := "https://api.intelsat.com/i1/api-monitoring/v1"

/-- Header construction of _api_call, lines 65-77: base headers, then
Authorization iff _sessionid is truthy at entry, then Cache-Control
exactly for the auth/logout endpoint, then the subscription key for
every endpoint other than auth/login. -/
def buildHeaders (apikey : String) (sessionid : Option String) (endpoint : String) :
    List (String × String) :=
  let h := [("Content-Type", "application/json"), ("Accept", "application/json")]
  let h := match sessionid with
    | some s => if s = "" then h else h ++ [("Authorization", "SESSID " ++ s)]
    | none => h
  let h := if endpoint = "auth/logout" then h ++ [("Cache-Control", "no-cache")] else h
  if endpoint = "auth/login" then h else h ++ [("Ocp-Apim-Subscription-Key", apikey)]

/-- The dict comprehension on line 84: keep the bindings whose value is
not None, in order. -/
def pyFiltered (ps : List (String × Option PVal)) : List (String × PVal) :=
  ps.filterMap (fun kv => kv.2.map (fun v => (kv.1, v)))

/-- Python dict assignment d[k] = v on an association list: overwrite
in place if the key exists, else append. -/
def dictSet (d : List (String × PVal)) (k : String) (v : PVal) : List (String × PVal) :=
  if d.any (fun kv => kv.1 == k) then
    d.map (fun kv => if kv.1 == k then (k, v) else kv)
  else d ++ [(k, v)]

/-- Evaluation of the expression data["meta"]["status"] != 200 on
line 101, where data is the request body argument of _api_call: None
subscripted raises TypeError, a dict without the key raises KeyError,
a non-dict value under meta raises TypeError on the second subscript,
and a non-int status compares unequal to 200. -/
def metaStatusCheck (data : Option (List (String × PyVal))) : Except PyError Bool :=
  match data with
  | none => .error .typeError
  | some d =>
    match pyLookup d "meta" with
    | none => .error .keyError
    | some (.vdict m) =>
      match pyLookup m "status" with
      | none => .error .keyError
      | some (.vint n) => .ok (!(n == 200))
      | some _ => .ok true
    | some _ => .error .typeError

/-- The for-loop over the errors array, lines 105-106: each entry is
subscripted with the string message, so iteration stops with a raised
KeyError at the first dict entry lacking the key, or a TypeError at the
first non-dict entry. -/
def reportErrors : List ErrEntry → Except PyError Unit
  | [] => .ok ()
  | .withMessage _ :: rest => reportErrors rest
  | .withoutMessage :: _ => .error .keyError
  | .nonDict :: _ => .error .typeError

/-- The error-reporting block of _api_call, lines 102-108, which runs
when the line-101 condition is true and itself subscripts the response:
with a statusCode key present, line 103 reads response["message"] and
raises KeyError when that key is absent; otherwise a non-empty errors
array is walked by reportErrors; otherwise (no statusCode, no errors
key or an empty array) the unhandled-response branch only logs. On
ok () control reaches the return None on line 109. -/
def errorBranch (body : RespBody) : Except PyError Unit :=
  if body.statusCode.isSome then
    match body.message with
    | some _ => .ok ()
    | none => .error .keyError
  else
    match body.errors with
    | some es => if 0 < es.length then reportErrors es else .ok ()
    | none => .ok ()

/-- The while-loop of _api_call, lines 82-111, with the source's bugs
kept: cur_page is never incremented, the meta check on line 101 reads
the request body data instead of the response, and last_page on
line 110 is float division, not integer ceiling. The fuel argument
bounds the number of iterations; offset is the number of physical
requests already sent by this logical call before the loop. -/
def runLoop (hs : List (String × String)) (method url : String)
    (data : Option (List (String × PyVal))) (params : Option (List (String × Option PVal)))
    (send : Nat → SendOutcome) (offset : Nat) :
    Nat → Nat → PyFloat → List RespBody → List SentRequest →
    List SentRequest × RunOutcome (Option (List RespBody))
  | 0, _, _, _, reqs => (reqs, .outOfFuel)
  | fuel + 1, curPage, lastPage, ret, reqs =>
    if pyLtNat curPage lastPage then
      match params with
      | none => (reqs, .raise .attributeError)
      | some ps =>
        let pageParams :=
          dictSet (dictSet (pyFiltered ps) "__page" (.pint curPage)) "__pageSize" (.pint 100)
        let req : SentRequest :=
          ⟨url, pageParams, method, hs, if method = "POST" then some data else none⟩
        match send (offset + reqs.length) with
        | .transportError => (reqs ++ [req], .raise .transportError)
        | .response sc jb =>
          if sc = 200 then
            match jb with
            | none => (reqs ++ [req], .raise .jsonDecodeError)
            | some body =>
              match body.meta with
              | none =>
                match errorBranch body with
                | .ok _ => (reqs ++ [req], .ok none)
                | .error e => (reqs ++ [req], .raise e)
              | some m =>
                match metaStatusCheck data with
                | .error e => (reqs ++ [req], .raise e)
                | .ok true =>
                  match errorBranch body with
                  | .ok _ => (reqs ++ [req], .ok none)
                  | .error e => (reqs ++ [req], .raise e)
                | .ok false =>
                  if m.pageSize = 0 then (reqs ++ [req], .raise .zeroDivisionError)
                  else
                    runLoop hs method url data params send offset fuel curPage
                      ⟨m.countTotal + m.pageSize - 1, m.pageSize⟩ (ret ++ [body]) (reqs ++ [req])
          else (reqs ++ [req], .ok none)
    else (reqs, .ok (some ret))

/-- The body of _api_call for a call that does not take the implicit
login branch (either _sessionid is truthy, or the endpoint is exactly
auth/login): build the headers from the state at entry and run the
pagination loop starting at cur_page = 1, last_page = 2 with empty
accumulators. -/
def dispatch (st : ClientState) (method endpoint : String)
    (data : Option (List (String × PyVal))) (params : Option (List (String × Option PVal)))
    (send : Nat → SendOutcome) (offset fuel : Nat) :
    List SentRequest × RunOutcome (Option (List RespBody)) :=
  runLoop (buildHeaders st.apikey st.sessionid endpoint) method (baseUrl ++ "/" ++ endpoint)
    data params send offset fuel 1 ⟨2, 1⟩ [] []

/-- The request body built by login(), lines 35-38. -/
def loginBody (st : ClientState) : List (String × PyVal) :=
  [("username", .vstr st.username), ("password", .vstr st.password)]

/-- The login() method, lines 30-41. Its inner _api_call is made with
the default params = None; if that call nevertheless returned, the
result (None or a list of pages) would be subscripted with the string
key data on line 39, a TypeError either way, so line 40 (the sessionid
assignment) and line 41 (return True) are unreachable and the state is
returned unchanged. -/
def loginMethod (st : ClientState) (send : Nat → SendOutcome) (fuel : Nat) :
    List SentRequest × ClientState × RunOutcome Bool :=
  match dispatch st "POST" "auth/login" (some (loginBody st)) none send 0 fuel with
  | (reqs, .outOfFuel) => (reqs, st, .outOfFuel)
  | (reqs, .raise e) => (reqs, st, .raise e)
  | (reqs, .ok none) => (reqs, st, .raise .typeError)
  | (reqs, .ok (some _)) => (reqs, st, .raise .typeError)

/-- Result of a logical _api_call: the physical requests sent, the
client state afterwards, and the outcome. -/
structure CallRes where
  reqs : List SentRequest
  state : ClientState
  out : RunOutcome (Option (List RespBody))

/-- IsMonApi._api_call, lines 52-112. If _sessionid is truthy the call
dispatches directly; otherwise, for any endpoint other than auth/login,
it first runs the implicit login (lines 71-73) and only dispatches if
that returned a truthy value, reusing the headers built before the
login from the entry state. -/
def apiCall (st : ClientState) (method endpoint : String)
    (data : Option (List (String × PyVal))) (params : Option (List (String × Option PVal)))
    (send : Nat → SendOutcome) (fuel : Nat) : CallRes :=
  if pyTruthy st.sessionid then
    let r := dispatch st method endpoint data params send 0 fuel
    ⟨r.1, st, r.2⟩
  else if endpoint = "auth/login" then
    let r := dispatch st method endpoint data params send 0 fuel
    ⟨r.1, st, r.2⟩
  else
    match loginMethod st send fuel with
    | (reqs, st2, .raise e) => ⟨reqs, st2, .raise e⟩
    | (reqs, st2, .outOfFuel) => ⟨reqs, st2, .outOfFuel⟩
    | (reqs, st2, .ok b) =>
      if b then
        let r := dispatch st method endpoint data params send reqs.length fuel
        ⟨reqs ++ r.1, st2, r.2⟩
      else ⟨reqs, st2, .ok none⟩

/-- The logout() method, lines 43-50: _api_call with POST, endpoint
auth/logout, and both data and params left at their None defaults. -/
def logoutMethod (st : ClientState) (send : Nat → SendOutcome) (fuel : Nat) : CallRes :=
  apiCall st "POST" "auth/logout" none none send fuel

/-- get_terminal_list, lines 114-140. -/
def get_terminal_list (st : ClientState)
    (id org_id name identifier terminal_subscription_id network_type_id terminal_type_id
      longitude latitude last_updated last_sync locked external_id external_name : Option PVal)
    (send : Nat → SendOutcome) (fuel : Nat) : CallRes :=
  apiCall st "GET" "/terminal/listing" none
    (some [("ID", id), ("OrganizationID", org_id), ("name", name), ("identifier", identifier),
      ("TerminalSubscriptionID", terminal_subscription_id),
      ("NetworkTypeID", network_type_id), ("TerminalTypeID", terminal_type_id),
      ("longitude", longitude), ("latitude", latitude), ("lastUpdated", last_updated),
      ("lastSync", last_sync), ("locked", locked), ("externalID", external_id),
      ("externalName", external_name)]) send fuel

/-- get_metric_list, lines 142-158. -/
def get_metric_list (st : ClientState)
    (id name unit aggregation_type type element_type : Option PVal)
    (send : Nat → SendOutcome) (fuel : Nat) : CallRes :=
  apiCall st "GET" "/metric/listing" none
    (some [("ID", id), ("name", name), ("unit", unit), ("aggregationType", aggregation_type),
      ("type", type), ("elementType", element_type)]) send fuel

/-- get_terminal_alarms, lines 160-176. The endpoint string in the
source is a plain string literal, not an f-string, so the terminal_id
argument is not substituted into it (and is used nowhere else). -/
def get_terminal_alarms (st : ClientState) (terminal_id : PVal)
    (id alarm_type_id severity description acknowledged acknowled_date start_date
      end_date : Option PVal)
    (send : Nat → SendOutcome) (fuel : Nat) : CallRes :=
  apiCall st "GET" "/terminal/\x7bterminal_id\x7d/alarms" none
    (some [("ID", id), ("AlarmTypeID", alarm_type_id), ("severity", severity),
      ("description", description), ("acknowledged", acknowledged),
      ("acknowledgedDate", acknowled_date), ("startDate", start_date),
      ("endDate", end_date)]) send fuel

/-- get_terminal_events, lines 178-191. As in get_terminal_alarms, the
endpoint is a plain (non-f-string) literal, so terminal_id is unused. -/
def get_terminal_events (st : ClientState) (terminal_id : PVal)
    (id event_type_id severity description date : Option PVal)
    (send : Nat → SendOutcome) (fuel : Nat) : CallRes :=
  apiCall st "GET" "/terminal/\x7bterminal_id\x7d/events" none
    (some [("ID", id), ("EventTypeID", event_type_id), ("severity", severity),
      ("description", description), ("date", date)]) send fuel

/-- get_login_status, lines 193-198: no params argument is passed. -/
def get_login_status (st : ClientState) (send : Nat → SendOutcome) (fuel : Nat) : CallRes :=
  apiCall st "GET" "/auth/login" none none send fuel

/-- get_systemwide_filters, lines 200-205: no params argument is
passed. -/
def get_systemwide_filters (st : ClientState) (send : Nat → SendOutcome) (fuel : Nat) : CallRes :=
  apiCall st "GET" "/core/availableSystemwidefilter" none none send fuel

/-- get_last_metric_status, lines 207-218. The first three arguments
are required; human_readable defaults to False in the source, a value
which is provided (not None) and therefore survives the filter. -/
def get_last_metric_status (st : ClientState)
    (element_id metric_id element_type human_readable : PVal)
    (send : Nat → SendOutcome) (fuel : Nat) : CallRes :=
  apiCall st "GET" "/monitoring/latestStatus" none
    (some [("ElementID", some element_id), ("MetricID", some metric_id),
      ("elementType", some element_type), ("humanReadable", some human_readable)]) send fuel

/-- get_monitoring_stats, lines 220-236. -/
def get_monitoring_stats (st : ClientState)
    (date_from element_id metric_id : PVal)
    (element_type date_to limit sort_order resolution : Option PVal)
    (send : Nat → SendOutcome) (fuel : Nat) : CallRes :=
  apiCall st "GET" "/monitoring/stats" none
    (some [("from", some date_from), ("to", date_to), ("ElementID", some element_id),
      ("MetricID", some metric_id), ("elementType", element_type), ("limit", limit),
      ("sortOrder", sort_order), ("resolution", resolution)]) send fuel

/-- True iff the query/dict has a binding for key k. -/
def hasKey (q : List (String × PVal)) (k : String) : Bool :=
  q.any (fun kv => kv.1 == k)

/-- True iff the parameter list has a binding for key k whose value was
actually provided (not None). -/
def providedKey (ps : List (String × Option PVal)) (k : String) : Bool :=
  ps.any (fun kv => kv.1 == k && kv.2.isSome)

/-
Concrete fixtures used by the claim theorems and witnesses.
-/

/-- A client holding a (truthy) session identifier. -/
def stEx : ClientState := ⟨"u", "p", "k", some "XYZ"⟩

/-- A client with no session identifier, as after __init__. -/
def stFresh : ClientState := ⟨"u", "p", "k", none⟩

/-- A well-formed page response body with meta.status = 200,
countTotal = 250, pageSize = 100. -/
def b250 : RespBody := ⟨some ⟨200, 250, 100⟩, none, none, none⟩

/-- A transport oracle answering every request with HTTP 200 and the
b250 body. -/
def send250 : Nat → SendOutcome := fun _ => .response 200 (some b250)

/-- A request body dict that contains a meta key with status 200, the
only shape under which line 101 does not raise; used to exhibit the
behaviour of the loop when its validation check passes. -/
def dataMeta : List (String × PyVal) := [("meta", .vdict [("status", .vint 200)])]

/-
Helper lemmas about the dispatcher loop.
-/

/-- If the loop guard holds and params is None, the first iteration
raises AttributeError from params.items() (line 84) before sending
anything. -/
theorem runLoop_one_none (hs : List (String × String)) (m u : String)
    (data : Option (List (String × PyVal))) (send : Nat → SendOutcome) (offset fuel : Nat) :
    runLoop hs m u data none send offset (fuel + 1) 1 ⟨2, 1⟩ [] [] =
      ([], .raise .attributeError) := by
  simp [runLoop, pyLtNat]

/-- The outcome of the first loop iteration of a call with data = None
(every GET accessor), as a function of the transport outcome: the
response is either rejected for its HTTP status (returning None), or
handed to the error-reporting block when it lacks a meta section (which
returns None unless that block itself raises on a statusCode key
without message or on a malformed errors entry), or the call raises - a
TypeError on any meta-bearing body, since line 101 subscripts the
request body data, which is None. -/
def getPageStep : SendOutcome → RunOutcome (Option (List RespBody))
  | .transportError => .raise .transportError
  | .response sc jb =>
    if sc = 200 then
      match jb with
      | none => .raise .jsonDecodeError
      | some body =>
        match body.meta with
        | none =>
          match errorBranch body with
          | .ok _ => .ok none
          | .error e => .raise e
        | some _ => .raise .typeError
    else .ok none

/-- A loop run with data = None performs exactly one iteration: it
sends one request carrying the filtered params plus __page = 1 and
__pageSize = 100, and finishes with getPageStep of the transport
outcome (the continue branch is unreachable because the line-101 check
raises TypeError on None whenever the response has a meta section). -/
theorem runLoop_get_first (hs : List (String × String)) (m u : String)
    (ps : List (String × Option PVal)) (send : Nat → SendOutcome) (offset fuel : Nat) :
    runLoop hs m u none (some ps) send offset (fuel + 1) 1 ⟨2, 1⟩ [] [] =
      ([⟨u, dictSet (dictSet (pyFiltered ps) "__page" (.pint 1)) "__pageSize" (.pint 100),
         m, hs, if m = "POST" then some none else none⟩],
       getPageStep (send offset)) := by
  rcases hsend : send offset with _ | ⟨sc, jb⟩
  · simp [runLoop, pyLtNat, hsend, getPageStep]
  · by_cases hsc : sc = 200
    · subst hsc
      rcases jb with _ | body
      · simp [runLoop, pyLtNat, hsend, getPageStep]
      · rcases hb : body.meta with _ | m0
        · rcases he : errorBranch body with e | u
          · simp [runLoop, pyLtNat, hsend, getPageStep, hb, he]
          · simp [runLoop, pyLtNat, hsend, getPageStep, hb, he]
        · simp [runLoop, pyLtNat, hsend, getPageStep, hb, metaStatusCheck]
    · simp [runLoop, pyLtNat, hsend, getPageStep, hsc]

/-- login() always raises AttributeError without sending any request
and without touching the client state: its inner _api_call is made
with params = None, so the first loop iteration fails at params.items()
(line 84) before any request is prepared. -/
theorem loginMethod_eq (st : ClientState) (send : Nat → SendOutcome) (fuel : Nat) :
    loginMethod st send (fuel + 1) = ([], st, .raise .attributeError) := by
  simp [loginMethod, dispatch, runLoop_one_none]

/-- login() never changes the client state, whatever the fuel. -/
theorem loginMethod_state (st : ClientState) (send : Nat → SendOutcome) (fuel : Nat) :
    (loginMethod st send fuel).2.1 = st := by
  unfold loginMethod
  rcases dispatch st "POST" "auth/login" (some (loginBody st)) none send 0 fuel with ⟨reqs, r⟩
  cases r with
  | ok o => cases o <;> rfl
  | raise e => rfl
  | outOfFuel => rfl

/-- The filtered dict has a binding for k exactly when the parameter
list has a binding for k whose value was provided. -/
theorem hasKey_pyFiltered (ps : List (String × Option PVal)) (k : String) :
    hasKey (pyFiltered ps) k = providedKey ps k := by
  induction ps with
  | nil => rfl
  | cons kv rest ih =>
    rcases kv with ⟨k1, ov⟩
    cases ov with
    | none => simpa [pyFiltered, providedKey, hasKey, List.filterMap_cons] using ih
    | some v => simp [pyFiltered, providedKey, hasKey, List.filterMap_cons] at ih ⊢; simp [ih]

/-- Every provided binding survives the filter. -/
theorem mem_pyFiltered (ps : List (String × Option PVal)) (k : String) (v : PVal)
    (h : (k, some v) ∈ ps) : (k, v) ∈ pyFiltered ps :=
  List.mem_filterMap.mpr ⟨(k, some v), h, rfl⟩

/-- Setting an absent key appends it. -/
theorem dictSet_append (d : List (String × PVal)) (k : String) (v : PVal)
    (h : d.any (fun kv => kv.1 == k) = false) : dictSet d k v = d ++ [(k, v)] := by
  simp [dictSet, h]

/-- When the caller's parameter list provides neither __page nor
__pageSize (as in every accessor of the source), the page parameters
are exactly the filtered parameters followed by __page and __pageSize. -/
theorem pageParams_eq (ps : List (String × Option PVal)) (pg : PVal)
    (h1 : providedKey ps "__page" = false) (h2 : providedKey ps "__pageSize" = false) :
    dictSet (dictSet (pyFiltered ps) "__page" pg) "__pageSize" (.pint 100) =
      pyFiltered ps ++ [("__page", pg), ("__pageSize", .pint 100)] := by
  have a1 : (pyFiltered ps).any (fun kv => kv.1 == "__page") = false := by
    have := hasKey_pyFiltered ps "__page"
    simp [hasKey] at this
    simp [this, h1]
  have a2 : (pyFiltered ps).any (fun kv => kv.1 == "__pageSize") = false := by
    have := hasKey_pyFiltered ps "__pageSize"
    simp [hasKey] at this
    simp [this, h2]
  rw [dictSet_append _ _ _ a1]
  rw [dictSet_append]
  · simp
  · simp [List.any_append, a2]

/-- When the line-101 validation passes (the request body data carries
meta.status = 200) and every page response reports countTotal = 250 and
pageSize = 100, the loop never terminates: cur_page stays 1, last_page
becomes the float 3.49, and each of the fuel iterations dispatches one
more request. -/
theorem runLoop_diverges (hs : List (String × String)) (m u : String) (offset : Nat)
    (fuel : Nat) :
    ∀ (lastPage : PyFloat) (ret : List RespBody) (reqs : List SentRequest),
      pyLtNat 1 lastPage = true →
      (runLoop hs m u (some dataMeta) (some []) send250 offset fuel 1 lastPage ret reqs).2
          = .outOfFuel ∧
      (runLoop hs m u (some dataMeta) (some []) send250 offset fuel 1 lastPage ret reqs).1.length
          = reqs.length + fuel := by
  induction fuel with
  | zero => intro lastPage ret reqs h; exact ⟨rfl, rfl⟩
  | succ fuel ih =>
    intro lastPage ret reqs h
    have hm : metaStatusCheck (some dataMeta) = Except.ok false := rfl
    have hstep : runLoop hs m u (some dataMeta) (some []) send250 offset (fuel + 1) 1 lastPage ret reqs
        = runLoop hs m u (some dataMeta) (some []) send250 offset fuel 1 ⟨349, 100⟩ (ret ++ [b250])
            (reqs ++ [⟨u, dictSet (dictSet (pyFiltered []) "__page" (.pint 1)) "__pageSize" (.pint 100),
              m, hs, if m = "POST" then some (some dataMeta) else none⟩]) := by
      simp [runLoop, h, send250, b250, hm]
    rw [hstep]
    obtain ⟨h1, h2⟩ := ih ⟨349, 100⟩ (ret ++ [b250]) _ (by decide)
    refine ⟨h1, ?_⟩
    rw [h2]
    simp
    omega

/-- An _api_call made with a truthy session identifier and a params
dict but no body (every GET accessor) dispatches exactly one request -
with the filtered params plus the page parameters - leaves the state
unchanged, and finishes with getPageStep of the first transport
outcome. -/
theorem apiCall_truthy (st : ClientState) (method endpoint : String)
    (ps : List (String × Option PVal)) (send : Nat → SendOutcome) (fuel : Nat)
    (h : pyTruthy st.sessionid = true) :
    apiCall st method endpoint none (some ps) send (fuel + 1) =
      ⟨[⟨baseUrl ++ "/" ++ endpoint,
         dictSet (dictSet (pyFiltered ps) "__page" (.pint 1)) "__pageSize" (.pint 100),
         method, buildHeaders st.apikey st.sessionid endpoint,
         if method = "POST" then some none else none⟩],
       st, getPageStep (send 0)⟩ := by
  simp [apiCall, h, dispatch, runLoop_get_first]

/-- An _api_call made with no (truthy) session identifier to any
endpoint other than auth/login takes the implicit-login branch, which
raises AttributeError before any request is dispatched, leaving the
state unchanged. -/
theorem apiCall_nosession (st : ClientState) (method endpoint : String)
    (data : Option (List (String × PyVal))) (params : Option (List (String × Option PVal)))
    (send : Nat → SendOutcome) (fuel : Nat)
    (h : pyTruthy st.sessionid = false) (hen : endpoint ≠ "auth/login") :
    apiCall st method endpoint data params send (fuel + 1) =
      ⟨[], st, .raise .attributeError⟩ := by
  simp [apiCall, h, hen, loginMethod_eq]

/-
Claim theorems.
-/

/-- Claim C1 (code bug). The claim says the pagination loop terminates
exactly when accumulated_pages * pageSize >= countTotal, dispatching
ceil(countTotal / pageSize) requests. The code does neither. First
conjunct: a GET dispatcher call whose page responses all carry
well-formed metadata (status 200, countTotal 250, pageSize 100)
dispatches exactly one request and then raises TypeError, because the
line-101 validation subscripts the request body data (None for GET)
instead of the response. Second conjunct: even when that validation
passes (request body crafted to carry meta.status 200), the loop never
terminates - cur_page is never incremented, so every one of the fuel
iterations re-dispatches page 1 and the loop is still running when any
amount of fuel runs out instead of stopping after ceil(250/100) = 3
requests. -/
theorem C1_pagination_code_bug :
    ((apiCall stEx "GET" "/terminal/listing" none (some []) send250 5).reqs.length = 1 ∧
      (apiCall stEx "GET" "/terminal/listing" none (some []) send250 5).out
        = .raise .typeError) ∧
    ∀ fuel : Nat,
      (runLoop (buildHeaders "k" (some "XYZ") "/terminal/listing") "POST"
          (baseUrl ++ "//terminal/listing") (some dataMeta) (some []) send250 0
          fuel 1 ⟨2, 1⟩ [] []).2 = .outOfFuel ∧
      (runLoop (buildHeaders "k" (some "XYZ") "/terminal/listing") "POST"
          (baseUrl ++ "//terminal/listing") (some dataMeta) (some []) send250 0
          fuel 1 ⟨2, 1⟩ [] []).1.length = fuel := by
  refine ⟨⟨rfl, rfl⟩, fun fuel => ?_⟩
  simpa using runLoop_diverges (buildHeaders "k" (some "XYZ") "/terminal/listing") "POST"
    (baseUrl ++ "//terminal/listing") 0 fuel ⟨2, 1⟩ [] [] (by decide)

/-- Claim C2 (code bug). For countTotal = 250, pageSize = 100 the claim
expects 3 page requests with __page = 1, 2, 3 and the aggregate of the
3 raw page objects. The code dispatches exactly one request, with
__page = 1 and __pageSize = 100, and then raises TypeError from the
line-101 validation; no aggregate is ever returned. -/
theorem C2_three_pages_code_bug :
    (apiCall stEx "GET" "/terminal/listing" none (some []) send250 9).reqs.map
        (fun r => r.query) = [[("__page", .pint 1), ("__pageSize", .pint 100)]] ∧
    (apiCall stEx "GET" "/terminal/listing" none (some []) send250 9).out
      = .raise .typeError :=
  ⟨rfl, rfl⟩

/-- Claim C5 (code bug). A page response that lacks the meta section is
indeed converted to an absent result (second conjunct). But a page
response whose meta.status is not 200 - the very case the validation is
supposed to reject - makes the call raise TypeError instead of
returning no result, because line 101 subscripts the request body data
(None on a GET call) rather than the response; the response's
meta.status value is never consulted. -/
theorem C5_meta_validation_code_bug :
    ((apiCall stEx "GET" "/metric/listing" none (some [])
        (fun _ => .response 200 (some ⟨some ⟨500, 10, 100⟩, none, none, none⟩)) 5).out
      = .raise .typeError ∧
      (apiCall stEx "GET" "/metric/listing" none (some [])
        (fun _ => .response 200 (some ⟨some ⟨500, 10, 100⟩, none, none, none⟩)) 5).reqs.length
      = 1) ∧
    (apiCall stEx "GET" "/metric/listing" none (some [])
        (fun _ => .response 200 (some ⟨none, some 400, some "Bad Request", none⟩)) 5).out
      = .ok none :=
  ⟨⟨rfl, rfl⟩, rfl⟩

/-- Claim C6 (code bug). The claim says login() stores the returned
session identifier on success and returns failure without raising on a
bad response. In the code, login() calls _api_call with the params
argument left at its None default, so the first loop iteration raises
AttributeError at params.items() (line 84) before any request is even
sent: for every client state, every transport behaviour and any
positive fuel, login() sends no request, raises AttributeError, and
leaves the state (in particular _sessionid) unchanged. Lines 39-41,
which would read the response and store the session id, are
unreachable. -/
theorem C6_login_code_bug (st : ClientState) (send : Nat → SendOutcome) (fuel : Nat) :
    loginMethod st send (fuel + 1) = ([], st, .raise .attributeError) :=
  loginMethod_eq st send fuel

/-- Claim C8 (code bug). The claim says the terminal id is substituted
into the endpoint path. The source passes a plain string literal (not
an f-string), so every call to get_terminal_alarms and
get_terminal_events requests the fixed literal path containing the text
\x7bterminal_id\x7d, and two calls with different terminal ids send
identical requests. -/
theorem C8_terminal_path_code_bug :
    (get_terminal_alarms stEx (.pint 7) none none none none none none none none
        send250 5).reqs.map (fun r => r.url)
      = ["https://api.intelsat.com/i1/api-monitoring/v1//terminal/\x7bterminal_id\x7d/alarms"] ∧
    (get_terminal_alarms stEx (.pint 7) none none none none none none none none
        send250 5).reqs
      = (get_terminal_alarms stEx (.pint 8) none none none none none none none none
        send250 5).reqs ∧
    (get_terminal_events stEx (.pint 7) none none none none none send250 5).reqs.map
        (fun r => r.url)
      = ["https://api.intelsat.com/i1/api-monitoring/v1//terminal/\x7bterminal_id\x7d/events"] ∧
    (get_terminal_events stEx (.pint 7) none none none none none send250 5).reqs
      = (get_terminal_events stEx (.pint 8) none none none none none send250 5).reqs :=
  ⟨rfl, rfl, rfl, rfl⟩

/-- Claim C9 (confirmed). logout() never modifies the locally stored
session identifier: for every client state, transport behaviour and
fuel, the state after a logout() call - whatever its outcome, including
the AttributeError it actually raises - carries the same _sessionid as
before, so a later call reuses the old session id instead of
re-logging-in. -/
theorem C9_logout_preserves_session (st : ClientState) (send : Nat → SendOutcome)
    (fuel : Nat) :
    (logoutMethod st send fuel).state.sessionid = st.sessionid := by
  have hst := loginMethod_state st send fuel
  unfold logoutMethod apiCall
  by_cases h : pyTruthy st.sessionid
  · simp [h]
  · rcases hl : loginMethod st send fuel with ⟨reqs, st2, r⟩
    rw [hl] at hst
    simp at hst
    subst hst
    cases r with
    | ok b => cases b <;> simp [h, hl]
    | raise e => simp [h, hl]
    | outOfFuel => simp [h, hl]

/-- Claim C10 (confirmed). The three public operations that call the
dispatcher without a params mapping - logout(), get_login_status() and
get_systemwide_filters() - always raise AttributeError instead of
returning a result, for every client state, transport behaviour and
positive fuel: either their own loop iteration dereferences the absent
params at line 84, or (with no session held) the implicit login does
the same first. -/
theorem C10_params_none_raises (st : ClientState) (send : Nat → SendOutcome) (fuel : Nat) :
    (logoutMethod st send (fuel + 1)).out = .raise .attributeError ∧
    (get_login_status st send (fuel + 1)).out = .raise .attributeError ∧
    (get_systemwide_filters st send (fuel + 1)).out = .raise .attributeError := by
  refine ⟨?_, ?_, ?_⟩ <;>
    first
    | (unfold logoutMethod apiCall
       by_cases h : pyTruthy st.sessionid
       · simp [h, dispatch, runLoop_one_none]
       · simp [h, loginMethod_eq])
    | (unfold get_login_status apiCall
       by_cases h : pyTruthy st.sessionid
       · simp [h, dispatch, runLoop_one_none]
       · simp [h, loginMethod_eq])
    | (unfold get_systemwide_filters apiCall
       by_cases h : pyTruthy st.sessionid
       · simp [h, dispatch, runLoop_one_none]
       · simp [h, loginMethod_eq])

/-- Claim C3 (confirmed). For every resource accessor that passes a
params dict, and any combination of its optional filter arguments, the
single dispatched request (under a held session) carries exactly the
provided parameters - the None-filtered dict in insertion order - plus
__page and __pageSize. The last two conjuncts characterise the filter:
a key appears in the filtered dict exactly when the caller provided a
value for it (None-defaulted arguments are dropped), and every provided
binding - including falsy values such as boolean false and the
humanReadable = False default - survives into the query. -/
theorem C3_param_filtering (st : ClientState) (send : Nat → SendOutcome) (fuel : Nat)
    (h : pyTruthy st.sessionid = true)
    (id org_id name identifier tsub ntype ttype lon lat lupd lsync locked extid
      extname : Option PVal)
    (mid mname munit magg mtype meltype : Option PVal)
    (tid : PVal) (aid aat asev adesc aack aackd astart aend : Option PVal)
    (eid eet esev edesc edate : Option PVal)
    (lel lmet lelt lhr : PVal)
    (sfrom sel smet : PVal) (selt sto slim ssort sres : Option PVal) :
    ((get_terminal_list st id org_id name identifier tsub ntype ttype lon lat lupd lsync
        locked extid extname send (fuel + 1)).reqs.map (fun r => r.query)
      = [pyFiltered [("ID", id), ("OrganizationID", org_id), ("name", name),
          ("identifier", identifier), ("TerminalSubscriptionID", tsub),
          ("NetworkTypeID", ntype), ("TerminalTypeID", ttype), ("longitude", lon),
          ("latitude", lat), ("lastUpdated", lupd), ("lastSync", lsync),
          ("locked", locked), ("externalID", extid), ("externalName", extname)]
          ++ [("__page", .pint 1), ("__pageSize", .pint 100)]]) ∧
    ((get_metric_list st mid mname munit magg mtype meltype send (fuel + 1)).reqs.map
        (fun r => r.query)
      = [pyFiltered [("ID", mid), ("name", mname), ("unit", munit),
          ("aggregationType", magg), ("type", mtype), ("elementType", meltype)]
          ++ [("__page", .pint 1), ("__pageSize", .pint 100)]]) ∧
    ((get_terminal_alarms st tid aid aat asev adesc aack aackd astart aend send
        (fuel + 1)).reqs.map (fun r => r.query)
      = [pyFiltered [("ID", aid), ("AlarmTypeID", aat), ("severity", asev),
          ("description", adesc), ("acknowledged", aack), ("acknowledgedDate", aackd),
          ("startDate", astart), ("endDate", aend)]
          ++ [("__page", .pint 1), ("__pageSize", .pint 100)]]) ∧
    ((get_terminal_events st tid eid eet esev edesc edate send (fuel + 1)).reqs.map
        (fun r => r.query)
      = [pyFiltered [("ID", eid), ("EventTypeID", eet), ("severity", esev),
          ("description", edesc), ("date", edate)]
          ++ [("__page", .pint 1), ("__pageSize", .pint 100)]]) ∧
    ((get_last_metric_status st lel lmet lelt lhr send (fuel + 1)).reqs.map
        (fun r => r.query)
      = [[("ElementID", lel), ("MetricID", lmet), ("elementType", lelt),
          ("humanReadable", lhr), ("__page", .pint 1), ("__pageSize", .pint 100)]]) ∧
    ((get_monitoring_stats st sfrom sel smet selt sto slim ssort sres send
        (fuel + 1)).reqs.map (fun r => r.query)
      = [pyFiltered [("from", some sfrom), ("to", sto), ("ElementID", some sel),
          ("MetricID", some smet), ("elementType", selt), ("limit", slim),
          ("sortOrder", ssort), ("resolution", sres)]
          ++ [("__page", .pint 1), ("__pageSize", .pint 100)]]) ∧
    (∀ (ps : List (String × Option PVal)) (k : String),
      hasKey (pyFiltered ps) k = providedKey ps k) ∧
    (∀ (ps : List (String × Option PVal)) (k : String) (v : PVal),
      (k, some v) ∈ ps → (k, v) ∈ pyFiltered ps) := by
  refine ⟨?_, ?_, ?_, ?_, ?_, ?_, hasKey_pyFiltered, mem_pyFiltered⟩
  · unfold get_terminal_list
    rw [apiCall_truthy _ _ _ _ _ fuel h]
    simp only [List.map_cons, List.map_nil]
    rw [pageParams_eq _ _ (by simp [providedKey]) (by simp [providedKey])]
  · unfold get_metric_list
    rw [apiCall_truthy _ _ _ _ _ fuel h]
    simp only [List.map_cons, List.map_nil]
    rw [pageParams_eq _ _ (by simp [providedKey]) (by simp [providedKey])]
  · unfold get_terminal_alarms
    rw [apiCall_truthy _ _ _ _ _ fuel h]
    simp only [List.map_cons, List.map_nil]
    rw [pageParams_eq _ _ (by simp [providedKey]) (by simp [providedKey])]
  · unfold get_terminal_events
    rw [apiCall_truthy _ _ _ _ _ fuel h]
    simp only [List.map_cons, List.map_nil]
    rw [pageParams_eq _ _ (by simp [providedKey]) (by simp [providedKey])]
  · unfold get_last_metric_status
    rw [apiCall_truthy _ _ _ _ _ fuel h]
    simp only [List.map_cons, List.map_nil]
    rw [pageParams_eq _ _ (by simp [providedKey]) (by simp [providedKey])]
    simp [pyFiltered]
  · unfold get_monitoring_stats
    rw [apiCall_truthy _ _ _ _ _ fuel h]
    simp only [List.map_cons, List.map_nil]
    rw [pageParams_eq _ _ (by simp [providedKey]) (by simp [providedKey])]

/-- Witness for C3: a concrete terminal-list call with every filter
left unset except locked = False; the query of the one dispatched
request is the filtered dict (which keeps the falsy-but-provided
locked) plus the page parameters. -/
theorem C3_param_filtering_witness :
    (get_terminal_list stEx none none none none none none none none none none none
        (some (.pbool false)) none none send250 1).reqs.map (fun r => r.query)
      = [pyFiltered [("ID", none), ("OrganizationID", none), ("name", none),
          ("identifier", none), ("TerminalSubscriptionID", none), ("NetworkTypeID", none),
          ("TerminalTypeID", none), ("longitude", none), ("latitude", none),
          ("lastUpdated", none), ("lastSync", none), ("locked", some (.pbool false)),
          ("externalID", none), ("externalName", none)]
          ++ [("__page", .pint 1), ("__pageSize", .pint 100)]] :=
  (C3_param_filtering stEx send250 0 rfl
    none none none none none none none none none none none (some (.pbool false)) none none
    none none none none none none
    (.pint 0) none none none none none none none none
    none none none none none
    (.pint 0) (.pint 0) (.pint 0) (.pint 0)
    (.pint 0) (.pint 0) (.pint 0) none none none none none).1

/-- Counterexample to claim C4: an error condition - a transport-level
failure on the first page request of an ordinary GET call - under which
the call does not return an absent result but lets the exception
propagate to the caller: the code has no try/except around
session.send. -/
theorem C4_error_handling_counterexample :
    (apiCall stEx "GET" "/terminal/listing" none (some []) (fun _ => .transportError) 5).out
      = .raise .transportError := rfl

/-- Claim C4 as amended. For a GET-style call (no body) with a held
session: a non-200 HTTP response is converted to an absent result with
no exception, and so is a 200 response whose body lacks a meta section
provided the error-reporting block itself succeeds (a statusCode key
accompanied by a message key, a non-empty errors array of dicts all
carrying message, an empty errors array, or none of these keys). But
exceptions do propagate: a transport failure; a meta-less body on which
the reporting block raises - a statusCode key without message (KeyError
from line 103) or a malformed errors entry (KeyError or TypeError from
line 106); and any 200 response whose body does contain a meta section
(the line-101 slip subscripts the None request body). With no session
held, the implicit login raises AttributeError - authentication failure
also surfaces as an exception, not an absent result. -/
theorem C4_error_handling_amended (st : ClientState) (method endpoint : String)
    (ps : List (String × Option PVal)) (send : Nat → SendOutcome) (fuel : Nat) :
    (pyTruthy st.sessionid = true →
      ((send 0 = .transportError →
        (apiCall st method endpoint none (some ps) send (fuel + 1)).out
          = .raise .transportError) ∧
      (∀ (sc : Int) (jb : Option RespBody), send 0 = .response sc jb → sc ≠ 200 →
        (apiCall st method endpoint none (some ps) send (fuel + 1)).out = .ok none) ∧
      (∀ b : RespBody, send 0 = .response 200 (some b) → b.meta = none →
        errorBranch b = .ok () →
        (apiCall st method endpoint none (some ps) send (fuel + 1)).out = .ok none) ∧
      (∀ (b : RespBody) (e : PyError), send 0 = .response 200 (some b) → b.meta = none →
        errorBranch b = .error e →
        (apiCall st method endpoint none (some ps) send (fuel + 1)).out = .raise e) ∧
      (∀ (b : RespBody) (m : MetaInfo), send 0 = .response 200 (some b) → b.meta = some m →
        (apiCall st method endpoint none (some ps) send (fuel + 1)).out
          = .raise .typeError))) ∧
    (pyTruthy st.sessionid = false → endpoint ≠ "auth/login" →
      (apiCall st method endpoint none (some ps) send (fuel + 1)).out
          = .raise .attributeError ∧
      (apiCall st method endpoint none (some ps) send (fuel + 1)).reqs = []) := by
  constructor
  · intro h
    rw [apiCall_truthy _ _ _ _ _ fuel h]
    refine ⟨fun hsend => by simp [hsend, getPageStep], ?_, ?_, ?_, ?_⟩
    · intro sc jb hsend hsc
      simp [hsend, getPageStep, hsc]
    · intro b hsend hb he
      simp [hsend, getPageStep, hb, he]
    · intro b e hsend hb he
      simp [hsend, getPageStep, hb, he]
    · intro b m hsend hb
      simp [hsend, getPageStep, hb]
  · intro h hen
    rw [apiCall_nosession _ _ _ _ _ _ fuel h hen]
    exact ⟨rfl, rfl⟩

/-- Witness for C4 as amended: a concrete body carrying statusCode 400
but no message key makes the call raise KeyError (the line-103
f-string subscript), while a concrete 404 response is converted to the
absent result. -/
theorem C4_error_handling_witness :
    (apiCall stEx "GET" "/metric/listing" none (some [])
        (fun _ => .response 200 (some ⟨none, some 400, none, none⟩)) 1).out
      = .raise .keyError ∧
    (apiCall stEx "GET" "/metric/listing" none (some []) (fun _ => .response 404 none) 1).out
      = .ok none :=
  ⟨(((C4_error_handling_amended stEx "GET" "/metric/listing" []
      (fun _ => .response 200 (some ⟨none, some 400, none, none⟩)) 0).1 rfl).2.2.2.1)
      ⟨none, some 400, none, none⟩ .keyError rfl rfl rfl,
    (((C4_error_handling_amended stEx "GET" "/metric/listing" []
      (fun _ => .response 404 none) 0).1 rfl).2.1) 404 none rfl (by decide)⟩

/-- Counterexample to claim C7: the Authorization header is not skipped
for the login call - a login request made while a session identifier is
held carries Authorization, because line 69 tests only the session
field, not the endpoint. -/
theorem C7_headers_counterexample :
    buildHeaders "k" (some "XYZ") "auth/login"
      = [("Content-Type", "application/json"), ("Accept", "application/json"),
         ("Authorization", "SESSID XYZ")] := rfl

/-- Claim C7 as amended. For every request the loop sends: the
subscription-key header is attached exactly for endpoints other than
auth/login; the no-cache header exactly for auth/logout; and the
Authorization header exactly when the session identifier held at call
entry is truthy - regardless of endpoint, so it is also attached to a
login call made while a session is held. The final conjunct settles the
after-implicit-login part of the claim vacuously: a call with no held
session to a non-login endpoint dispatches no request at all, since the
implicit login raises first. -/
theorem C7_headers_amended (apikey : String) (sess : Option String) (endpoint : String) :
    ((("Ocp-Apim-Subscription-Key", apikey) ∈ buildHeaders apikey sess endpoint)
        ↔ endpoint ≠ "auth/login") ∧
    ((("Cache-Control", "no-cache") ∈ buildHeaders apikey sess endpoint)
        ↔ endpoint = "auth/logout") ∧
    ((∃ s : String, ("Authorization", "SESSID " ++ s) ∈ buildHeaders apikey sess endpoint)
        ↔ pyTruthy sess = true) ∧
    (∀ (st : ClientState) (method : String) (data : Option (List (String × PyVal)))
        (params : Option (List (String × Option PVal))) (send : Nat → SendOutcome)
        (fuel : Nat),
      pyTruthy st.sessionid = false → endpoint ≠ "auth/login" →
      (apiCall st method endpoint data params send (fuel + 1)).reqs = []) := by
  have hmain : ∀ sess2 : Option String,
      ((("Ocp-Apim-Subscription-Key", apikey) ∈ buildHeaders apikey sess2 endpoint)
        ↔ endpoint ≠ "auth/login") ∧
      ((("Cache-Control", "no-cache") ∈ buildHeaders apikey sess2 endpoint)
        ↔ endpoint = "auth/logout") ∧
      ((∃ s : String, ("Authorization", "SESSID " ++ s) ∈ buildHeaders apikey sess2 endpoint)
        ↔ pyTruthy sess2 = true) := by
    intro sess2
    rcases sess2 with _ | s
    · by_cases he1 : endpoint = "auth/login"
      · subst he1
        simp [buildHeaders, pyTruthy]
      · by_cases he2 : endpoint = "auth/logout"
        · subst he2
          simp [buildHeaders, pyTruthy]
        · simp [buildHeaders, pyTruthy, he1, he2]
    · by_cases hs : s = ""
      · subst hs
        by_cases he1 : endpoint = "auth/login"
        · subst he1
          simp [buildHeaders, pyTruthy]
        · by_cases he2 : endpoint = "auth/logout"
          · subst he2
            simp [buildHeaders, pyTruthy]
          · simp [buildHeaders, pyTruthy, he1, he2]
      · by_cases he1 : endpoint = "auth/login"
        · subst he1
          simp [buildHeaders, pyTruthy, hs]
        · by_cases he2 : endpoint = "auth/logout"
          · subst he2
            simp [buildHeaders, pyTruthy, hs]
          · simp [buildHeaders, pyTruthy, hs, he1, he2]
  refine ⟨(hmain sess).1, (hmain sess).2.1, (hmain sess).2.2, ?_⟩
  intro st method data params send fuel h hen
  rw [apiCall_nosession _ _ _ _ _ _ fuel h hen]

/-- Witness for C7 as amended: the logout endpoint does get the
subscription-key header. -/
theorem C7_headers_witness :
    ("Ocp-Apim-Subscription-Key", "k") ∈ buildHeaders "k" (some "XYZ") "auth/logout" :=
  ((C7_headers_amended "k" (some "XYZ") "auth/logout").1).mpr (by decide)
